import Mathlib

/-!
Verification of the natal-chart computation in `src/NatalChart.tsx`.

The component computes, for a birth date (`dob`) and birth time (`tob`),
geocentric ecliptic-plane longitudes for seven celestial bodies, classifies
each into one of twelve 30-degree zodiac sectors, and lays the symbols out
on concentric rings of a 320-unit SVG disc.

The embedding below mirrors the source:
* `ZODIAC_SIGNS`, `PLANETS` are the static tables (lines 13-106);
* `CivilDateTime` with `setHour`/`setMinute`/`setSecond` models the dayjs
  object and its field-setter calls; `combineBirthMoment` is the
  `dob.hour(tob.hour()).minute(tob.minute()).second(0)` chain (lines 111-115);
* the external `Astronomy.GeoVector` provider is a parameter of type
  `Body → CivilDateTime → Except String Vec`: a JavaScript call that either
  returns a vector or throws;
* `mapExcept` models `Array.prototype.map` under exception semantics:
  left-to-right, and a throw in the callback aborts the whole map;
* `computePosition` is the body of the map callback (lines 118-130):
  `atan2`, degree conversion, negative-angle normalization, sector lookup
  with the `?.name || ""` fallback;
* `getCoordinates`, `planetRadius` and the SVG constants are lines 135-146
  and 211.

Real numbers stand for JavaScript floats; `Math.atan2 (y, x)` is modelled as
`Complex.arg ⟨x, y⟩`, which has the same range `(-π, π]` and the same value
`0` at the origin.
-/

namespace NatalChart

/-- One entry of the `ZODIAC_SIGNS` table. -/
structure ZodiacSign where
  name : String
  symbol : String
  color : String
  start : ℤ
  desc : String
  deriving DecidableEq, Repr

/-- The seven bodies the chart uses (the `Astronomy.Body` values that occur). -/
inductive Body where
  | Sun | Moon | Mercury | Venus | Mars | Jupiter | Saturn
  deriving DecidableEq, Repr

/-- One entry of the `PLANETS` table. -/
structure Planet where
  name : String
  key : Body
  symbol : String
  color : String
  deriving DecidableEq, Repr

/-- The `ZODIAC_SIGNS` constant (source lines 13-86). -/
def ZODIAC_SIGNS : List ZodiacSign :=
  [ { name := "Aries", symbol := "♈", color := "#FF5733", start := 0, desc := "The Ram" },
    { name := "Taurus", symbol := "♉", color := "#4CAF50", start := 30, desc := "The Bull" },
    { name := "Gemini", symbol := "♊", color := "#FFC107", start := 60, desc := "The Twins" },
    { name := "Cancer", symbol := "♋", color := "#B23EFF", start := 90, desc := "The Crab" },
    { name := "Leo", symbol := "♌", color := "#FF9800", start := 120, desc := "The Lion" },
    { name := "Virgo", symbol := "♍", color := "#8BC34A", start := 150, desc := "The Virgin" },
    { name := "Libra", symbol := "♎", color := "#03A9F4", start := 180, desc := "The Scales" },
    { name := "Scorpio", symbol := "♏", color := "#E91E63", start := 210, desc := "The Scorpion" },
    { name := "Sagittarius", symbol := "♐", color := "#9C27B0", start := 240, desc := "The Archer" },
    { name := "Capricorn", symbol := "♑", color := "#795548", start := 270, desc := "The Goat" },
    { name := "Aquarius", symbol := "♒", color := "#00BCD4", start := 300, desc := "The Water Bearer" },
    { name := "Pisces", symbol := "♓", color := "#3F51B5", start := 330, desc := "The Fish" } ]

/-- The `PLANETS` constant (source lines 88-106). -/
def PLANETS : List Planet :=
  [ { name := "Sun", key := Body.Sun, symbol := "☉", color := "#FFD700" },
    { name := "Moon", key := Body.Moon, symbol := "☽", color := "#E0E0E0" },
    { name := "Mercury", key := Body.Mercury, symbol := "☿", color := "#B0BEC5" },
    { name := "Venus", key := Body.Venus, symbol := "♀", color := "#F48FB1" },
    { name := "Mars", key := Body.Mars, symbol := "♂", color := "#EF5350" },
    { name := "Jupiter", key := Body.Jupiter, symbol := "♃", color := "#FFCA28" },
    { name := "Saturn", key := Body.Saturn, symbol := "♄", color := "#8D6E63" } ]

/-- A dayjs value, viewed through the fields this component reads and writes. -/
structure CivilDateTime where
  year : ℤ
  month : ℤ
  day : ℤ
  hour : ℤ
  minute : ℤ
  second : ℤ
  millisecond : ℤ
  deriving DecidableEq, Repr

/-- dayjs `.hour(h)`: a copy with the hour replaced. -/
def setHour (d : CivilDateTime) (h : ℤ) : CivilDateTime := { d with hour := h }

/-- dayjs `.minute(m)`: a copy with the minute replaced. -/
def setMinute (d : CivilDateTime) (m : ℤ) : CivilDateTime := { d with minute := m }

/-- dayjs `.second(s)`: a copy with the second replaced. -/
def setSecond (d : CivilDateTime) (s : ℤ) : CivilDateTime := { d with second := s }

/-- The timestamp handed to the ephemeris provider (source lines 111-115):
`dob.hour(tob.hour()).minute(tob.minute()).second(0)`. -/
def combineBirthMoment (dob tob : CivilDateTime) : CivilDateTime :=
  setSecond (setMinute (setHour dob tob.hour) tob.minute) 0

/-- The 3D geocentric vector returned by `Astronomy.GeoVector`. -/
structure Vec where
  x : ℝ
  y : ℝ
  z : ℝ

/-- `Math.atan2 y x`, modelled as the argument of the complex number `x + y·i`:
range `(-π, π]`, value `0` at the origin, matching JavaScript. -/
noncomputable def atan2 (y x : ℝ) : ℝ := Complex.arg ⟨x, y⟩

/-- Source line 119: `Math.atan2(vector.y, vector.x) * (180 / Math.PI)`. -/
noncomputable def rawLongitude (v : Vec) : ℝ := atan2 v.y v.x * (180 / Real.pi)

/-- Source line 120: `if (longitude < 0) longitude += 360`. -/
noncomputable def normalizeLongitude (l : ℝ) : ℝ := if l < 0 then l + 360 else l

/-- Source line 123: `Math.floor(longitude / 30)`. -/
noncomputable def signIndexOf (longitude : ℝ) : ℤ := ⌊longitude / 30⌋

/-- JavaScript array indexing `ZODIAC_SIGNS[i]`: `undefined` (`none`) outside
the bounds, including negative indices. -/
def zodiacLookup (i : ℤ) : Option ZodiacSign :=
  if i < 0 then none else ZODIAC_SIGNS.get? i.toNat

/-- Source line 124: `ZODIAC_SIGNS[signIndex]?.name || ""`. -/
noncomputable def signNameOf (longitude : ℝ) : String :=
  ((zodiacLookup (signIndexOf longitude)).map ZodiacSign.name).getD ""

/-- One element of `planetaryPositions`: the spread of the planet record plus
its computed `degree` and `sign`. -/
structure PlanetPosition where
  name : String
  key : Body
  symbol : String
  color : String
  degree : ℝ
  sign : String

/-- The map callback of source lines 117-130 for one planet, under a provider
that may throw. -/
noncomputable def computePosition (geoVector : Body → CivilDateTime → Except String Vec)
    (dateObj : CivilDateTime) (planet : Planet) : Except String PlanetPosition := do
  let vector ← geoVector planet.key dateObj
  let longitude := normalizeLongitude (rawLongitude vector)
  pure { name := planet.name, key := planet.key, symbol := planet.symbol,
         color := planet.color, degree := longitude, sign := signNameOf longitude }

/-- `Array.prototype.map` under JavaScript exception semantics: the callback
runs left to right and a throw aborts the whole map. -/
def mapExcept (f : α → Except ε β) : List α → Except ε (List β)
  | [] => Except.ok []
  | a :: as => do
      let b ← f a
      let bs ← mapExcept f as
      pure (b :: bs)

/-- The whole `planetaryPositions` computation (source lines 110-132):
combine `dob` and `tob` into `dateObj`, then map over `PLANETS`. -/
noncomputable def planetaryPositions (geoVector : Body → CivilDateTime → Except String Vec)
    (dob tob : CivilDateTime) : Except String (List PlanetPosition) :=
  let dateObj := combineBirthMoment dob tob
  mapExcept (computePosition geoVector dateObj) PLANETS

/-! ## SVG layout (source lines 134-146 and 211) -/

/-- Source line 135: the diagram size. -/
def size : ℝ := 320

/-- Source line 136: `center = size / 2`. -/
noncomputable def center : ℝ := size / 2

/-- Source line 137: `radius = size / 2 - 10`. -/
noncomputable def radius : ℝ := size / 2 - 10

/-- Source line 138: `innerRadius = radius - 40`. -/
noncomputable def innerRadius : ℝ := radius - 40

/-- A 2D point of the SVG layout. -/
structure Point where
  x : ℝ
  y : ℝ

/-- Source lines 140-146: `getCoordinates(degree, r)`. -/
noncomputable def getCoordinates (degree r : ℝ) : Point :=
  let radians := -degree * (Real.pi / 180)
  { x := center + r * Real.cos radians, y := center + r * Real.sin radians }

/-- Source line 211: `planetRadius = innerRadius - 20 - (index % 2) * 15`. -/
noncomputable def planetRadius (index : ℕ) : ℝ :=
  innerRadius - 20 - (index % 2 : ℕ) * 15

/-- Source line 173: the endpoint of a sector divider line. -/
noncomputable def sectorLineEnd (sign : ZodiacSign) : Point :=
  getCoordinates (sign.start : ℝ) radius

/-- Source line 174: the anchor of a sector glyph. -/
noncomputable def sectorGlyphPos (sign : ZodiacSign) : Point :=
  getCoordinates ((sign.start : ℝ) + 15) (radius - 20)

/-- Source line 212: the marker point of the planet at a given table index. -/
noncomputable def planetMarker (p : PlanetPosition) (index : ℕ) : Point :=
  getCoordinates p.degree (planetRadius index)

/-! ## Example inputs used by witnesses -/

/-- An always-succeeding provider returning the unit vector on the x axis. -/
def gvEx : Body → CivilDateTime → Except String Vec :=
  fun _ _ => Except.ok ⟨1, 0, 0⟩

/-- A concrete birth date: 1990-06-15 (midnight, as a date picker yields). -/
def dobEx : CivilDateTime := ⟨1990, 6, 15, 0, 0, 0, 0⟩

/-- A concrete birth time: 14:30:00.000. -/
def tobEx : CivilDateTime := ⟨2026, 1, 1, 14, 30, 0, 0⟩

/-- The same birth time with nonzero seconds and milliseconds: 14:30:45.500. -/
def tobEx2 : CivilDateTime := ⟨2026, 1, 1, 14, 30, 45, 500⟩

/-- A provider that throws for the Moon and succeeds for every other body. -/
def gvBad : Body → CivilDateTime → Except String Vec :=
  fun b _ => if b = Body.Moon then Except.error "ephemeris failure" else Except.ok ⟨1, 0, 0⟩

/-- The first entry of `PLANETS`. -/
def sunEntry : Planet := { name := "Sun", key := Body.Sun, symbol := "☉", color := "#FFD700" }

/-- The second entry of `PLANETS`. -/
def moonEntry : Planet := { name := "Moon", key := Body.Moon, symbol := "☽", color := "#E0E0E0" }

/-- The position record the map callback yields for planet `p` under `gvEx`. -/
noncomputable def posEx (p : Planet) : PlanetPosition :=
  { name := p.name, key := p.key, symbol := p.symbol, color := p.color,
    degree := normalizeLongitude (rawLongitude ⟨1, 0, 0⟩),
    sign := signNameOf (normalizeLongitude (rawLongitude ⟨1, 0, 0⟩)) }

/-- The projector's full output under `gvEx`. -/
noncomputable def lEx : List PlanetPosition := PLANETS.map posEx

end NatalChart

namespace NatalChart

/-! ## Reduction lemmas for the `Except` monad and `mapExcept` -/

theorem except_bind_ok (a : α) (f : α → Except ε β) :
    (Except.ok a >>= f : Except ε β) = f a := rfl

theorem except_bind_error (e : ε) (f : α → Except ε β) :
    (Except.error e >>= f : Except ε β) = Except.error e := rfl

theorem except_map_ok (g : α → β) (a : α) :
    (g <$> (Except.ok a : Except ε α)) = Except.ok (g a) := rfl

theorem except_map_error (g : α → β) (e : ε) :
    (g <$> (Except.error e : Except ε α)) = Except.error e := rfl

theorem except_pure (a : α) : (pure a : Except ε α) = Except.ok a := rfl

theorem except_isOk_ok (a : α) : (Except.ok a : Except ε α).isOk = true := rfl

theorem except_isOk_error (e : ε) : (Except.error e : Except ε α).isOk = false := rfl

/-- Mapping a callback that never throws succeeds and is an ordinary map. -/
theorem mapExcept_ok_map (g : α → β) (f : α → Except ε β)
    (h : ∀ x, f x = .ok (g x)) : ∀ xs : List α, mapExcept f xs = .ok (xs.map g) := by
  intro xs
  induction xs with
  | nil => rfl
  | cons a as ih =>
    simp [mapExcept, h, ih, except_bind_ok, except_map_ok]

/-- If the callback throws for some element of the list, the whole map fails. -/
theorem mapExcept_error_of_mem {f : α → Except ε β} :
    ∀ {xs : List α} {x : α} {e : ε}, x ∈ xs → f x = .error e →
      (mapExcept f xs).isOk = false := by
  intro xs
  induction xs with
  | nil => intro x e hx; cases hx
  | cons a as ih =>
    intro x e hx hfx
    rcases List.mem_cons.mp hx with rfl | hx
    · simp [mapExcept, hfx, except_bind_error, except_isOk_error]
    · cases hfa : f a with
      | error e0 =>
        simp [mapExcept, hfa, except_bind_error, except_isOk_error]
      | ok b =>
        have h2 := ih hx hfx
        simp only [mapExcept, hfa, except_bind_ok]
        cases hrest : mapExcept f as with
        | error e2 => simp [hrest, except_map_error, except_isOk_error]
        | ok bs => rw [hrest] at h2; rw [except_isOk_ok] at h2; cases h2

/-- A successful `mapExcept` succeeds elementwise, in order. -/
theorem mapExcept_ok_forall2 {f : α → Except ε β} :
    ∀ {xs : List α} {ys : List β}, mapExcept f xs = Except.ok ys →
      List.Forall₂ (fun x y => f x = Except.ok y) xs ys := by
  intro xs
  induction xs with
  | nil =>
    intro ys h
    simp [mapExcept] at h
    subst h
    exact List.Forall₂.nil
  | cons a as ih =>
    intro ys h
    cases hfa : f a with
    | error e => simp [mapExcept, hfa, except_bind_error] at h
    | ok b =>
      cases hrest : mapExcept f as with
      | error e2 => simp [mapExcept, hfa, hrest, except_bind_ok, except_map_error] at h
      | ok bs =>
        simp only [mapExcept, hfa, hrest, except_bind_ok, except_map_ok, except_pure,
          Except.ok.injEq] at h
        subst h
        exact List.Forall₂.cons hfa (ih hrest)

theorem forall2_mem_right {R : α → β → Prop} :
    ∀ {xs : List α} {ys : List β}, List.Forall₂ R xs ys → ∀ y ∈ ys, ∃ x ∈ xs, R x y := by
  intro xs ys h
  induction h with
  | nil => intro y hy; cases hy
  | cons hr ht ih =>
    intro y hy
    rcases List.mem_cons.mp hy with rfl | hy
    · exact ⟨_, List.mem_cons_self _ _, hr⟩
    · obtain ⟨x, hx, hxy⟩ := ih y hy
      exact ⟨x, List.mem_cons_of_mem _ hx, hxy⟩

/-! ## Longitude arithmetic -/

/-- `atan2` in degrees lies in `(-180, 180]`. -/
theorem rawLongitude_bounds (v : Vec) :
    -180 < rawLongitude v ∧ rawLongitude v ≤ 180 := by
  have hπ : (0:ℝ) < Real.pi := Real.pi_pos
  have h1 : -Real.pi < atan2 v.y v.x := Complex.neg_pi_lt_arg _
  have h2 : atan2 v.y v.x ≤ Real.pi := Complex.arg_le_pi _
  have hq : (0:ℝ) < 180 / Real.pi := by positivity
  have hcancel : Real.pi * (180 / Real.pi) = 180 := by field_simp
  constructor
  · have := mul_lt_mul_of_pos_right h1 hq
    rw [rawLongitude]
    nlinarith
  · have := mul_le_mul_of_nonneg_right h2 (le_of_lt hq)
    rw [rawLongitude]
    nlinarith

/-- The negative-angle correction maps `(-180, 180]` into `[0, 360)`. -/
theorem normalizeLongitude_bounds (l : ℝ) (hlo : -180 < l) (hhi : l ≤ 180) :
    0 ≤ normalizeLongitude l ∧ normalizeLongitude l < 360 := by
  rw [normalizeLongitude]
  split_ifs with h
  · constructor <;> linarith
  · constructor <;> linarith

/-- The composed longitude of any provider vector lies in `[0, 360)`. -/
theorem normalize_raw_bounds (v : Vec) :
    0 ≤ normalizeLongitude (rawLongitude v) ∧
    normalizeLongitude (rawLongitude v) < 360 := by
  obtain ⟨hlo, hhi⟩ := rawLongitude_bounds v
  exact normalizeLongitude_bounds _ hlo hhi

/-- Anatomy of a successful per-planet computation: the spread copies the
table fields, and `degree`/`sign` come from the provider's vector. -/
theorem computePosition_fields {gv : Body → CivilDateTime → Except String Vec}
    {d : CivilDateTime} {p : Planet} {pos : PlanetPosition}
    (h : computePosition gv d p = Except.ok pos) :
    pos.name = p.name ∧ pos.key = p.key ∧ pos.symbol = p.symbol ∧ pos.color = p.color ∧
    ∃ v, gv p.key d = Except.ok v ∧
      pos.degree = normalizeLongitude (rawLongitude v) ∧
      pos.sign = signNameOf (normalizeLongitude (rawLongitude v)) := by
  cases hv : gv p.key d with
  | error e => simp only [computePosition, hv, except_bind_error] at h; cases h
  | ok v =>
    simp only [computePosition, hv, except_bind_ok, except_pure, Except.ok.injEq] at h
    subst h
    exact ⟨rfl, rfl, rfl, rfl, v, rfl, rfl, rfl⟩

/-! ## Sector-table arithmetic -/

/-- The table's start degrees are `30·n` for index `n`. -/
theorem zodiac_start_at (n : ℕ) (hn : n < 12) :
    (ZODIAC_SIGNS.get? n).map ZodiacSign.start = some (30 * (n : ℤ)) := by
  interval_cases n <;> rfl

theorem signIndexOf_bounds (L : ℝ) (h0 : 0 ≤ L) (h1 : L < 360) :
    0 ≤ signIndexOf L ∧ signIndexOf L < 12 := by
  constructor
  · exact Int.floor_nonneg.mpr (by positivity)
  · apply Int.floor_lt.mpr
    push_cast
    linarith

theorem floor_bracket (L : ℝ) :
    30 * (signIndexOf L : ℝ) ≤ L ∧ L < 30 * (signIndexOf L : ℝ) + 30 := by
  have h1 : (signIndexOf L : ℝ) ≤ L / 30 := Int.floor_le _
  have h2 : L / 30 < (signIndexOf L : ℝ) + 1 := Int.lt_floor_add_one _
  constructor <;> nlinarith

/-- Elementwise success preserves the spread-copied table fields, in order. -/
theorem forall2_fields_map {gv : Body → CivilDateTime → Except String Vec}
    {d : CivilDateTime} :
    ∀ {ps : List Planet} {l : List PlanetPosition},
      List.Forall₂ (fun p y => computePosition gv d p = Except.ok y) ps l →
      l.map (fun q => (q.name, q.symbol, q.color))
        = ps.map (fun p => (p.name, p.symbol, p.color)) := by
  intro ps l h
  induction h with
  | nil => rfl
  | cons hr ht ih =>
    obtain ⟨hn, -, hs, hc, -⟩ := computePosition_fields hr
    simp only [List.map_cons, ih, hn, hs, hc]

/-- Under the always-succeeding example provider the projector returns `lEx`. -/
theorem planetaryPositions_gvEx :
    planetaryPositions gvEx dobEx tobEx = Except.ok lEx :=
  mapExcept_ok_map posEx (computePosition gvEx (combineBirthMoment dobEx tobEx))
    (fun _ => rfl) PLANETS

/-! ## Claim theorems -/

/-- **C6.** For every degree value `d` and radius `r`, the angle-to-point
mapping used for both sector marks and body markers returns
`x = center + r·cos(-d·π/180)` and `y = center + r·sin(-d·π/180)`:
a clockwise-increasing angle convention with 0° at the right. -/
theorem angle_mapping_formula (d r : ℝ) :
    (getCoordinates d r).x = center + r * Real.cos (-d * Real.pi / 180) ∧
    (getCoordinates d r).y = center + r * Real.sin (-d * Real.pi / 180) ∧
    (∀ s : ZodiacSign, sectorLineEnd s = getCoordinates (s.start : ℝ) radius) ∧
    (∀ (p : PlanetPosition) (i : ℕ),
      planetMarker p i = getCoordinates p.degree (planetRadius i)) := by
  refine ⟨?_, ?_, fun _ => rfl, fun _ _ => rfl⟩ <;>
    · simp only [getCoordinates]
      ring_nf

/-- **C7.** The combined timestamp handed to the ephemeris provider takes its
year, month and day from the birth-date input, its hour and minute from the
birth-time input, and has its seconds component set to zero. -/
theorem combine_fields (dob tob : CivilDateTime) :
    (combineBirthMoment dob tob).year = dob.year ∧
    (combineBirthMoment dob tob).month = dob.month ∧
    (combineBirthMoment dob tob).day = dob.day ∧
    (combineBirthMoment dob tob).hour = tob.hour ∧
    (combineBirthMoment dob tob).minute = tob.minute ∧
    (combineBirthMoment dob tob).second = 0 := by
  simp [combineBirthMoment, setHour, setMinute, setSecond]

/-- **C8.** The body at table index `i` is placed at radius
`innerRadius - 20 - (i mod 2)·15`: even indices at `innerRadius - 20`, odd
indices at `innerRadius - 35`, and consecutive indices always get distinct
radii. -/
theorem planetRadius_alternates (i : ℕ) :
    (i % 2 = 0 → planetRadius i = innerRadius - 20) ∧
    (i % 2 = 1 → planetRadius i = innerRadius - 35) ∧
    planetRadius i ≠ planetRadius (i + 1) := by
  have h2 : (i + 1) % 2 = (i % 2 + 1 % 2) % 2 := Nat.add_mod i 1 2
  rcases Nat.mod_two_eq_zero_or_one i with h | h <;>
    rw [h] at h2 <;> norm_num at h2 <;>
    simp only [planetRadius, h, h2] <;>
    norm_num [innerRadius, radius, size]

/-- Witness for `planetRadius_alternates` at indices 0 and 1. -/
theorem planetRadius_alternates_spot :
    planetRadius 0 = innerRadius - 20 ∧ planetRadius 1 = innerRadius - 35 ∧
    planetRadius 0 ≠ planetRadius 1 :=
  ⟨(planetRadius_alternates 0).1 rfl, (planetRadius_alternates 1).2.1 rfl,
    (planetRadius_alternates 0).2.2⟩

/-- **C5.** Both stages are deterministic functions of their inputs alone:
the projector applied twice to equal birth moments (under the same provider)
yields identical results, and the layout mapping applied twice to equal
degree/radius inputs yields identical coordinates. -/
theorem projector_and_layout_deterministic :
    (∀ (gv : Body → CivilDateTime → Except String Vec) (dob tob dob2 tob2 : CivilDateTime),
      dob = dob2 → tob = tob2 →
      planetaryPositions gv dob tob = planetaryPositions gv dob2 tob2) ∧
    (∀ d r d2 r2 : ℝ, d = d2 → r = r2 → getCoordinates d r = getCoordinates d2 r2) := by
  constructor
  · intro gv dob tob dob2 tob2 h1 h2
    rw [h1, h2]
  · intro d r d2 r2 h1 h2
    rw [h1, h2]

/-- Witness for `projector_and_layout_deterministic` at concrete inputs. -/
theorem projector_and_layout_deterministic_spot :
    planetaryPositions gvEx dobEx tobEx = planetaryPositions gvEx dobEx tobEx ∧
    getCoordinates 45 100 = getCoordinates 45 100 :=
  ⟨projector_and_layout_deterministic.1 gvEx dobEx tobEx dobEx tobEx rfl rfl,
    projector_and_layout_deterministic.2 45 100 45 100 rfl rfl⟩

/-- **C10.** The projector's output depends on the time-of-birth input only
through its hour and minute: two birth times agreeing on hour and minute but
differing in seconds or milliseconds give identical positions. -/
theorem positions_ignore_seconds
    (gv : Body → CivilDateTime → Except String Vec) (dob tob1 tob2 : CivilDateTime)
    (hh : tob1.hour = tob2.hour) (hm : tob1.minute = tob2.minute) :
    planetaryPositions gv dob tob1 = planetaryPositions gv dob tob2 := by
  have hc : combineBirthMoment dob tob1 = combineBirthMoment dob tob2 := by
    simp [combineBirthMoment, setHour, setMinute, setSecond, hh, hm]
  simp only [planetaryPositions, hc]

/-- Witness for `positions_ignore_seconds`: 14:30:00.000 versus 14:30:45.500. -/
theorem positions_ignore_seconds_spot :
    tobEx.second ≠ tobEx2.second ∧ tobEx.millisecond ≠ tobEx2.millisecond ∧
    planetaryPositions gvEx dobEx tobEx = planetaryPositions gvEx dobEx tobEx2 :=
  ⟨by decide, by decide, positions_ignore_seconds gvEx dobEx tobEx tobEx2 rfl rfl⟩

/-- **C2.** Every `degree` (ecliptic longitude) in a successful projector
output lies in `[0, 360)`: the raw `atan2` angle in degrees, with 360 added
when negative, is at least 0 and strictly below 360. -/
theorem longitudes_in_range (gv : Body → CivilDateTime → Except String Vec)
    (dob tob : CivilDateTime) (l : List PlanetPosition)
    (hok : planetaryPositions gv dob tob = Except.ok l) :
    ∀ p ∈ l, 0 ≤ p.degree ∧ p.degree < 360 := by
  intro p hp
  have hm : mapExcept (computePosition gv (combineBirthMoment dob tob)) PLANETS
      = Except.ok l := hok
  obtain ⟨planet, hmem, hcp⟩ := forall2_mem_right (mapExcept_ok_forall2 hm) p hp
  obtain ⟨-, -, -, -, v, -, hdeg, -⟩ := computePosition_fields hcp
  rw [hdeg]
  exact normalize_raw_bounds v

/-- Witness for `longitudes_in_range`: the Sun entry of the example run. -/
theorem longitudes_in_range_spot :
    0 ≤ (posEx sunEntry).degree ∧ (posEx sunEntry).degree < 360 :=
  longitudes_in_range gvEx dobEx tobEx lEx planetaryPositions_gvEx (posEx sunEntry)
    (List.mem_map_of_mem posEx (by decide))

/-- **C3.** For every longitude `L` in `[0, 360)` the assigned sector is
`ZODIAC_SIGNS[⌊L/30⌋]`, and it satisfies `start ≤ L < start + 30`
(half-open, lower-inclusive). -/
theorem sector_halfopen (L : ℝ) (h0 : 0 ≤ L) (h1 : L < 360) :
    ∃ s : ZodiacSign,
      zodiacLookup (signIndexOf L) = some s ∧
      ZODIAC_SIGNS.get? (signIndexOf L).toNat = some s ∧
      (s.start : ℝ) ≤ L ∧ L < (s.start : ℝ) + 30 := by
  obtain ⟨hi0, hi12⟩ := signIndexOf_bounds L h0 h1
  have hnat : (signIndexOf L).toNat < 12 := by omega
  have hlen : (signIndexOf L).toNat < ZODIAC_SIGNS.length := hnat
  have hget : ZODIAC_SIGNS.get? (signIndexOf L).toNat
      = some (ZODIAC_SIGNS.get ⟨(signIndexOf L).toNat, hlen⟩) := List.get?_eq_get hlen
  have hstart : (ZODIAC_SIGNS.get ⟨(signIndexOf L).toNat, hlen⟩).start
      = 30 * (((signIndexOf L).toNat : ℕ) : ℤ) := by
    have h := zodiac_start_at (signIndexOf L).toNat hnat
    rw [hget] at h
    simpa using h
  refine ⟨ZODIAC_SIGNS.get ⟨(signIndexOf L).toNat, hlen⟩, ?_, hget, ?_, ?_⟩
  · rw [zodiacLookup, if_neg (by omega)]
    exact hget
  · rw [hstart]
    push_cast [Int.toNat_of_nonneg hi0]
    exact (floor_bracket L).1
  · rw [hstart]
    push_cast [Int.toNat_of_nonneg hi0]
    exact (floor_bracket L).2

/-- Witness for `sector_halfopen` at the boundary longitude 30°, which the
table assigns to the second sector, not the first. -/
theorem sector_halfopen_spot :
    (0:ℝ) ≤ 30 ∧ (30:ℝ) < 360 ∧ signIndexOf 30 = 1 ∧
    (∃ s : ZodiacSign,
      zodiacLookup (signIndexOf 30) = some s ∧
      ZODIAC_SIGNS.get? (signIndexOf 30).toNat = some s ∧
      (s.start : ℝ) ≤ 30 ∧ (30:ℝ) < (s.start : ℝ) + 30) :=
  ⟨by norm_num, by norm_num, by rw [signIndexOf]; norm_num,
    sector_halfopen 30 (by norm_num) (by norm_num)⟩

/-- **C4.** A successful projector output has exactly 7 entries, one per
`PLANETS` entry in table order, each carrying its planet's name, symbol and
color unchanged. -/
theorem seven_positions (gv : Body → CivilDateTime → Except String Vec)
    (dob tob : CivilDateTime) (l : List PlanetPosition)
    (hok : planetaryPositions gv dob tob = Except.ok l) :
    l.length = 7 ∧
    l.map (fun q => (q.name, q.symbol, q.color))
      = PLANETS.map (fun p => (p.name, p.symbol, p.color)) := by
  have hm : mapExcept (computePosition gv (combineBirthMoment dob tob)) PLANETS
      = Except.ok l := hok
  have h2 := mapExcept_ok_forall2 hm
  constructor
  · have hl := List.Forall₂.length_eq h2
    simpa [PLANETS] using hl.symm
  · exact forall2_fields_map h2

/-- Witness for `seven_positions`: the example run. -/
theorem seven_positions_spot :
    lEx.length = 7 ∧
    lEx.map (fun q => (q.name, q.symbol, q.color))
      = PLANETS.map (fun p => (p.name, p.symbol, p.color)) :=
  seven_positions gvEx dobEx tobEx lEx planetaryPositions_gvEx

/-- **C1, as stated, is false**: with a provider that fails for the Moon
alone and succeeds for the other six bodies, the projector does not return
the other six positions — the exception propagates out of the `PLANETS.map`
callback and the whole computation yields the error. -/
theorem single_failure_aborts_cex :
    planetaryPositions gvBad dobEx tobEx = Except.error "ephemeris failure" := rfl

/-- **C1, amended.** A provider failure for any single body aborts the whole
projection: there is no per-body degradation to an "unknown" result. -/
theorem provider_failure_aborts (gv : Body → CivilDateTime → Except String Vec)
    (dob tob : CivilDateTime) (p : Planet) (e : String)
    (hp : p ∈ PLANETS) (he : gv p.key (combineBirthMoment dob tob) = Except.error e) :
    (planetaryPositions gv dob tob).isOk = false := by
  have hcp : computePosition gv (combineBirthMoment dob tob) p = Except.error e := by
    simp only [computePosition, he, except_bind_error]
  exact mapExcept_error_of_mem hp hcp

/-- Witness for `provider_failure_aborts`: the Moon-failing provider. -/
theorem provider_failure_aborts_spot :
    (planetaryPositions gvBad dobEx tobEx).isOk = false :=
  provider_failure_aborts gvBad dobEx tobEx moonEntry "ephemeris failure" (by decide) rfl

/-- **C9.** When the computed sector index falls outside the 12-entry table,
the `?.name || ""` lookup falls back to the empty label instead of failing,
so sector classification is total over all longitudes. -/
theorem sector_fallback_out_of_range (L : ℝ)
    (h : signIndexOf L < 0 ∨ 11 < signIndexOf L) : signNameOf L = "" := by
  rw [signNameOf, zodiacLookup]
  rcases h with h | h
  · rw [if_pos h]
    rfl
  · rw [if_neg (by omega)]
    have hlen : ZODIAC_SIGNS.length ≤ (signIndexOf L).toNat := by
      have h12 : ZODIAC_SIGNS.length = 12 := rfl
      omega
    rw [List.get?_eq_none.mpr hlen]
    rfl

/-- Witness for `sector_fallback_out_of_range` at longitude 360, whose index
12 is out of range. -/
theorem sector_fallback_out_of_range_spot :
    11 < signIndexOf 360 ∧ signNameOf 360 = "" := by
  have h : signIndexOf 360 = 12 := by rw [signIndexOf]; norm_num
  exact ⟨by omega, sector_fallback_out_of_range 360 (Or.inr (by omega))⟩

end NatalChart
